import Mathlib

/-!
Verification of the change-detection core of the laboratorio_cambio_urbano
repository: the spectral-index engine (scripts/calculate_indices.py) and the
three change-detection methods with their shared raster helpers
(scripts/detect_changes.py).

The numpy float arrays are embedded as grids of `Option ℚ`: `some q` is the
finite float value `q`, `none` is a non-finite value (NaN, or the infinity
produced by a division by exact zero; both read as non-finite by
`np.isfinite` and compare as false against any threshold, which is the only
way the scripts inspect them). Arithmetic propagates `none`, and the
comparison operators return `false` when either side is `none`, exactly the
IEEE behaviour the numpy code relies on.
-/

namespace CambioUrbano

/-- A float cell value: `some q` finite, `none` non-finite (NaN). -/
abbrev F := Option ℚ

/-- Float addition: NaN propagates. -/
def fadd : F → F → F
  | some a, some b => some (a + b)
  | _, _ => none

/-- Float subtraction: NaN propagates. -/
def fsub : F → F → F
  | some a, some b => some (a - b)
  | _, _ => none

/-- Float division: NaN propagates; a zero denominator yields a non-finite
    result (inf or NaN in IEEE, both modelled as `none`). -/
def fdiv : F → F → F
  | some a, some b => if b = 0 then none else some (a / b)
  | _, _ => none

/-- Float strict greater-than: false when either side is NaN. -/
def fgt : F → F → Bool
  | some a, some b => decide (b < a)
  | _, _ => false

/-- Float strict less-than: false when either side is NaN. -/
def flt : F → F → Bool
  | some a, some b => decide (a < b)
  | _, _ => false

/-- Float less-or-equal: false when either side is NaN. -/
def fle : F → F → Bool
  | some a, some b => decide (a ≤ b)
  | _, _ => false

/-- np.isfinite on a cell. -/
def isfinite : F → Bool
  | some _ => true
  | none => false

/-! ## IndexEngine: scripts/calculate_indices.py, calcular_indices

The source raster holds 6 bands of finite numeric samples (rasterio reads
the stored integers or floats; the script casts them with astype(float)).
A raw image is a band function over 1-based band indices and 0-based pixel
coordinates, plus its dimensions. -/

/-- A source raster: dimensions and a (1-based band, row, col) sample
    function. Samples are finite stored numbers. -/
structure RawImage where
  rows : ℕ
  cols : ℕ
  band : ℕ → ℕ → ℕ → ℚ

/-- The sample window read by calcular_indices:
    src.read(1, window=((0, 10), (0, 10))), clipped to the dataset extent,
    flattened row-major. -/
def sampleList (img : RawImage) : List ℚ :=
  (List.range (min img.rows 10)).flatMap (fun i =>
    (List.range (min img.cols 10)).map (fun j => img.band 1 i j))

/-- np.max over the sample window (the window is nonempty whenever the
    image is; the fold is seeded with the first sample, which belongs to
    the window when rows and cols are positive). -/
def sampleMax (img : RawImage) : ℚ :=
  (sampleList img).foldl max (img.band 1 0 0)

/-- ScaleDetector: factor = 10000.0 when np.max(sample) > 1.5, else 1.0. -/
def factor (img : RawImage) : ℚ :=
  if sampleMax img > 3 / 2 then 10000 else 1

/-- Band read in calcular_indices: src.read(b).astype(float) / factor. -/
def scaledBand (img : RawImage) (b i j : ℕ) : ℚ :=
  img.band b i j / factor img

/-- The five index-relevant scaled band values of one pixel. -/
structure BandPix where
  blue : ℚ
  green : ℚ
  red : ℚ
  nir : ℚ
  swir1 : ℚ

/-- The pixel of scaled bands read by calcular_indices at (i, j). -/
def readPix (img : RawImage) (i j : ℕ) : BandPix :=
  { blue := scaledBand img 1 i j
    green := scaledBand img 2 i j
    red := scaledBand img 3 i j
    nir := scaledBand img 4 i j
    swir1 := scaledBand img 5 i j }

/-- The epsilon added to every index denominator. -/
def eps : ℚ := 1 / 10000000000

/-- The invalid-pixel mask: (blue + green + red + nir + swir1) == 0. -/
def maskPix (p : BandPix) : Bool :=
  decide (p.blue + p.green + p.red + p.nir + p.swir1 = 0)

/-- The blue array after the script assigns blue[mask] = np.nan. This is
    the only band the mask is applied to in the source. -/
def blueMasked (p : BandPix) : F :=
  if maskPix p then none else some p.blue

/-- NDVI = (nir - red) / (nir + red + eps); nir and red are the unmasked
    finite arrays. -/
def ndviPix (p : BandPix) : F :=
  fdiv (some (p.nir - p.red)) (some (p.nir + p.red + eps))

/-- NDBI = (swir1 - nir) / (swir1 + nir + eps). -/
def ndbiPix (p : BandPix) : F :=
  fdiv (some (p.swir1 - p.nir)) (some (p.swir1 + p.nir + eps))

/-- NDWI = (green - nir) / (green + nir + eps). -/
def ndwiPix (p : BandPix) : F :=
  fdiv (some (p.green - p.nir)) (some (p.green + p.nir + eps))

/-- BSI = ((swir1 + red) - (nir + blue)) / ((swir1 + red) + (nir + blue) + eps),
    where blue is the masked array (NaN at invalid pixels). -/
def bsiPix (p : BandPix) : F :=
  fdiv (fsub (some (p.swir1 + p.red)) (fadd (some p.nir) (blueMasked p)))
    (fadd (fadd (some (p.swir1 + p.red)) (fadd (some p.nir) (blueMasked p)))
      (some eps))

/-- The four-band IndexStack cell written by calcular_indices at one pixel. -/
def calcularIndicesPix (p : BandPix) : F × F × F × F :=
  (ndviPix p, ndbiPix p, ndwiPix p, bsiPix p)

/-! ## scripts/detect_changes.py: shared raster helpers -/

/-- load_masked_image at one pixel. rasterio.mask with crop=False keeps the
    stored cell value inside the boundary polygon and fills the cells
    outside it with 0 (the source rasters define no nodata value, so the
    fill is the default 0). The array is then cast to float and every cell
    that equals exactly 0 is replaced with NaN. -/
def load_masked_image_px (inside : Bool) (stored : F) : F :=
  let filled : F := if inside then stored else some 0
  match filled with
  | some x => if x = 0 then none else some x
  | none => none

/-- Output dtypes save_raster can choose from. -/
inductive DType where
  | int8
  | int16
  | float32
deriving DecidableEq

/-- The array handed to save_raster: integer content (the int8 change maps)
    or float content (the Z-score map). Integer cells are exact; float
    cells use the NaN-aware model. -/
inductive NDArray where
  | intArr (vals : List ℤ)
  | floatArr (vals : List F)

/-- data.min() over an integer array (numpy requires the array nonempty;
    the fold is seeded with the first element). -/
def arrMin (l : List ℤ) : ℤ :=
  l.foldl min (l.headD 0)

/-- data.max() over an integer array. -/
def arrMax (l : List ℤ) : ℤ :=
  l.foldl max (l.headD 0)

/-- The raster profile save_raster writes with: inferred dtype, inferred
    nodata (none models NaN), and LZW compression. -/
structure OutProfile where
  dtype : DType
  nodata : F
  lzwCompressed : Bool
deriving DecidableEq

/-- save_raster encoding inference: integer content uses int8 when
    data.min() >= -128 and data.max() <= 127 and int16 otherwise, with
    nodata 0; float content uses float32 with nodata NaN; the profile is
    always updated with compress=lzw. -/
def save_raster_profile : NDArray → OutProfile
  | NDArray.intArr vals =>
    { dtype := if -128 ≤ arrMin vals ∧ arrMax vals ≤ 127 then DType.int8 else DType.int16
      nodata := some 0
      lzwCompressed := true }
  | NDArray.floatArr _ =>
    { dtype := DType.float32
      nodata := none
      lzwCompressed := true }

/-! ## Method 1: method_difference -/

/-- method_difference at one pixel: the loaded (masked) band values a (year
    t1) and b (year t2); diff = b - a; the change map starts at 0, cells
    with diff > threshold are set to 1, then cells with diff < -threshold
    are set to -1. NaN compares false, so invalid pixels keep 0. -/
def method_difference_px (a b : F) (threshold : ℚ) : ℤ :=
  let diff := fsub b a
  let afterGain : ℤ := if fgt diff (some threshold) then 1 else 0
  if flt diff (some (-threshold)) then -1 else afterGain

/-! ## Method 2: method_urban_classification -/

/-- The six loaded (masked) index values of one pixel: NDVI, NDBI, NDWI
    for year t1 and year t2. -/
structure UrbanPix where
  ndvi1 : F
  ndbi1 : F
  ndwi1 : F
  ndvi2 : F
  ndbi2 : F
  ndwi2 : F

/-- Rule 1 (urbanization): ndvi_t1 > 0.3 and ndbi_t2 > 0.0 and
    (ndbi_t2 - ndbi_t1) > 0.1. -/
def mask_urb (p : UrbanPix) : Bool :=
  fgt p.ndvi1 (some (3 / 10)) && fgt p.ndbi2 (some 0) &&
    fgt (fsub p.ndbi2 p.ndbi1) (some (1 / 10))

/-- Rule 2 (non-urban vegetation loss): ndvi_t1 > 0.3 and
    (ndvi_t1 - ndvi_t2) > 0.1 and ndbi_t2 <= 0.0. -/
def mask_loss (p : UrbanPix) : Bool :=
  fgt p.ndvi1 (some (3 / 10)) && fgt (fsub p.ndvi1 p.ndvi2) (some (1 / 10)) &&
    fle p.ndbi2 (some 0)

/-- Rule 3 (vegetation gain): ndvi_t2 > 0.3 and (ndvi_t2 - ndvi_t1) > 0.1. -/
def mask_gain (p : UrbanPix) : Bool :=
  fgt p.ndvi2 (some (3 / 10)) && fgt (fsub p.ndvi2 p.ndvi1) (some (1 / 10))

/-- Rule 4 (new water): ndwi_t1 < 0.0 and ndwi_t2 > 0.0. -/
def mask_new_water (p : UrbanPix) : Bool :=
  flt p.ndwi1 (some 0) && fgt p.ndwi2 (some 0)

/-- valid = np.isfinite(ndvi_t1) & np.isfinite(ndvi_t2). -/
def validPix (p : UrbanPix) : Bool :=
  isfinite p.ndvi1 && isfinite p.ndvi2

/-- method_urban_classification at one pixel: clase starts at 0; rule 1
    sets 1 on mask_urb & valid; each later rule k sets k only on cells
    where clase is still 0 (mask_k & valid & clase == 0). -/
def method_urban_classification_px (p : UrbanPix) : ℤ :=
  let c1 : ℤ := if mask_urb p && validPix p then 1 else 0
  let c2 : ℤ := if mask_loss p && validPix p && decide (c1 = 0) then 2 else c1
  let c3 : ℤ := if mask_gain p && validPix p && decide (c2 = 0) then 3 else c2
  if mask_new_water p && validPix p && decide (c3 = 0) then 4 else c3

/-! ## Method 3: method_anomaly -/

/-- np.nanmean over the per-pixel temporal stack: the mean of the finite
    entries, NaN when there is none. -/
def nanmean (l : List F) : F :=
  let v := l.filterMap id
  if v.isEmpty then none else some (v.sum / (v.length : ℚ))

/-- The per-pixel variance np.nanstd takes the square root of: mean squared
    deviation of the finite entries from their mean, NaN when there is no
    finite entry. -/
def nanvar (l : List F) : F :=
  let v := l.filterMap id
  if v.isEmpty then none
  else some ((v.map (fun x => (x - v.sum / (v.length : ℚ)) ^ 2)).sum / (v.length : ℚ))

/-- np.nanstd: the square root of nanvar, NaN when nanvar is NaN. The
    square root of a float is not exactly representable in ℚ, so the
    (monotone, value-irrelevant here) square-root map is a parameter;
    every theorem below holds for an arbitrary sqrt. -/
def nanstd (sqrt : ℚ → ℚ) (l : List F) : F :=
  (nanvar l).map sqrt

/-- method_anomaly at one pixel: history is the stack of loaded (masked)
    NDVI values of the non-target years, current the loaded target value;
    z = (current - mean) / (std + 1e-6); non-finite z (NaN, or inf from a
    zero denominator) is replaced with 0. -/
def method_anomaly_px (sqrt : ℚ → ℚ) (history : List F) (current : F) : ℚ :=
  let z := fdiv (fsub current (nanmean history))
    (fadd (nanstd sqrt history) (some (1 / 1000000)))
  match z with
  | some v => v
  | none => 0

/-- The availability guard of method_anomaly, over the list of years that
    have an indices_YYYY.tif artifact. history_files keeps every file whose
    name does not contain the target year (for the four-digit years of
    indices_YYYY.tif names this is exactly year inequality); target_file is
    the first file whose name contains the target year. The method logs an
    error and returns, writing nothing, exactly when the target file is
    missing or the history list is empty. -/
def anomaly_insufficient (files : List ℤ) (target : ℤ) : Bool :=
  let history := files.filter (fun y => decide (y ≠ target))
  let targetPresent := files.contains target
  !targetPresent || history.isEmpty

/-! ## CLI validation of detect_changes.py -/

/-- The configured inclusive year bound. -/
def MIN_YEAR : ℤ := 2019

/-- The configured inclusive year bound. -/
def MAX_YEAR : ℤ := 2025

/-- The argument validation of the main block, in source order: year range
    check, then t1 < t2 check, then existence of both index artifacts.
    Returns false when the program calls sys.exit(1) (before any
    change-detection method runs) and true when it proceeds to dispatch
    the methods. -/
def main_validates (t1 t2 : ℤ) (file1Exists file2Exists : Bool) : Bool :=
  if ¬(MIN_YEAR ≤ t1 ∧ t1 ≤ MAX_YEAR) ∨ ¬(MIN_YEAR ≤ t2 ∧ t2 ≤ MAX_YEAR) then
    false
  else if t1 ≥ t2 then
    false
  else if !file1Exists || !file2Exists then
    false
  else
    true

/-! ## Concrete inputs used by the witnesses -/

/-- The all-zero source pixel: every index-relevant band is 0. -/
def zeroPix : BandPix :=
  { blue := 0, green := 0, red := 0, nir := 0, swir1 := 0 }

/-- A mid-reflectance pixel with every band at 0.2. -/
def bandPix02 : BandPix :=
  { blue := 1 / 5, green := 1 / 5, red := 1 / 5, nir := 1 / 5, swir1 := 1 / 5 }

/-- The spec scenario pixel for the rule classifier: year A has NDVI 0.5
    and NDBI -0.2, year B has NDVI 0.1 and NDBI 0.2; NDWI -0.1 both years. -/
def uPix0 : UrbanPix :=
  { ndvi1 := some (1 / 2), ndbi1 := some (-(1 / 5)), ndwi1 := some (-(1 / 10))
    ndvi2 := some (1 / 10), ndbi2 := some (1 / 5), ndwi2 := some (-(1 / 10)) }

/-- A one-pixel raw image whose samples are the digital number 2000. -/
def rawImg0 : RawImage :=
  { rows := 1, cols := 1, band := fun _ _ _ => 2000 }

/-- A pixel with NaN NDVI in the first year: the classifier input outside
    the valid mask. -/
def uPixNaN : UrbanPix :=
  { ndvi1 := none, ndbi1 := some 1, ndwi1 := some 1
    ndvi2 := some 1, ndbi2 := some 1, ndwi2 := some 1 }

/-! ## Helper lemmas -/

/-- Congruence for flatMap over a fixed list. -/
theorem flatMap_congr_mem {α β : Type} (l : List α) (f g : α → List β)
    (h : ∀ a ∈ l, f a = g a) : l.flatMap f = l.flatMap g := by
  induction l with
  | nil => rfl
  | cons x xs ih =>
    simp only [List.flatMap_cons]
    rw [h x (by simp), ih (fun a ha => h a (by simp [ha]))]

/-- Congruence for map over a fixed list. -/
theorem map_congr_mem {α β : Type} (l : List α) (f g : α → β)
    (h : ∀ a ∈ l, f a = g a) : l.map f = l.map g := by
  induction l with
  | nil => rfl
  | cons x xs ih =>
    simp only [List.map_cons]
    rw [h x (by simp), ih (fun a ha => h a (by simp [ha]))]

/-- A lower bound on every element and on the seed is a lower bound on a
    min fold. -/
theorem le_foldl_min (c : ℤ) : ∀ (l : List ℤ) (init : ℤ), c ≤ init →
    (∀ v ∈ l, c ≤ v) → c ≤ l.foldl min init := by
  intro l
  induction l with
  | nil => intro init hinit _; exact hinit
  | cons x xs ih =>
    intro init hinit h
    exact ih (min init x) (le_min hinit (h x (by simp)))
      (fun v hv => h v (by simp [hv]))

/-- A min fold is at most its seed. -/
theorem foldl_min_le_init : ∀ (l : List ℤ) (init : ℤ), l.foldl min init ≤ init := by
  intro l
  induction l with
  | nil => intro init; exact le_refl init
  | cons x xs ih =>
    intro init
    exact le_trans (ih (min init x)) (min_le_left init x)

/-- A min fold is at most every element of the list. -/
theorem foldl_min_le_mem : ∀ (l : List ℤ) (init : ℤ), ∀ v ∈ l, l.foldl min init ≤ v := by
  intro l
  induction l with
  | nil => intro init v hv; cases hv
  | cons x xs ih =>
    intro init v hv
    rcases List.mem_cons.mp hv with h | h
    · subst h
      exact le_trans (foldl_min_le_init xs (min init v)) (min_le_right init v)
    · exact ih (min init x) v h

/-- An upper bound on every element and on the seed is an upper bound on a
    max fold. -/
theorem foldl_max_le (c : ℤ) : ∀ (l : List ℤ) (init : ℤ), init ≤ c →
    (∀ v ∈ l, v ≤ c) → l.foldl max init ≤ c := by
  intro l
  induction l with
  | nil => intro init hinit _; exact hinit
  | cons x xs ih =>
    intro init hinit h
    exact ih (max init x) (max_le hinit (h x (by simp)))
      (fun v hv => h v (by simp [hv]))

/-- A max fold is at least its seed. -/
theorem init_le_foldl_max : ∀ (l : List ℤ) (init : ℤ), init ≤ l.foldl max init := by
  intro l
  induction l with
  | nil => intro init; exact le_refl init
  | cons x xs ih =>
    intro init
    exact le_trans (le_max_left init x) (ih (max init x))

/-- A max fold is at least every element of the list. -/
theorem mem_le_foldl_max : ∀ (l : List ℤ) (init : ℤ), ∀ v ∈ l, v ≤ l.foldl max init := by
  intro l
  induction l with
  | nil => intro init v hv; cases hv
  | cons x xs ih =>
    intro init v hv
    rcases List.mem_cons.mp hv with h | h
    · subst h
      exact le_trans (le_max_right init v) (init_le_foldl_max xs (max init v))
    · exact ih (max init x) v h

/-- A stack of NaN cells has no finite entry. -/
theorem replicate_none_filterMap (n : ℕ) :
    (List.replicate n (none : F)).filterMap id = [] := by
  induction n with
  | zero => rfl
  | succ k ih => simp [List.replicate_succ, ih]

/-- Every cell loads to NaN outside the boundary polygon. -/
theorem load_outside_none (v : F) : load_masked_image_px false v = none := by
  cases v with
  | none => rfl
  | some x =>
    simp only [load_masked_image_px]
    norm_num

/-- The normalized-difference quotient with a nonnegative numerator pair is
    bounded by 1 + eps in absolute value. -/
theorem normdiff_bounds (a b : ℚ) (ha : 0 ≤ a) (hb : 0 ≤ b) :
    -(1 + eps) ≤ (a - b) / (a + b + eps) ∧ (a - b) / (a + b + eps) ≤ 1 + eps := by
  have he : (0 : ℚ) < eps := by norm_num [eps]
  have hd : (0 : ℚ) < a + b + eps := by linarith
  constructor
  · rw [le_div_iff₀ hd]
    nlinarith [mul_nonneg he.le hd.le]
  · rw [div_le_iff₀ hd]
    nlinarith [mul_nonneg he.le hd.le]

/-! ## Claim theorems -/

/-- Claim C1. The claim says a pixel whose five index-relevant bands sum to
    zero is NaN in all four bands of the IndexStack. The code evaluated at
    that failing input: the mask is applied only to the blue array, so at
    the all-zero pixel NDVI, NDBI and NDWI are the finite value 0 and only
    BSI is NaN. -/
theorem c1_all_zero_pixel_eval :
    maskPix zeroPix = true ∧
    calcularIndicesPix zeroPix = (some 0, some 0, some 0, none) ∧
    isfinite (ndviPix zeroPix) = true := by
  refine ⟨?_, ?_, ?_⟩
  · norm_num [maskPix, zeroPix]
  · norm_num [calcularIndicesPix, ndviPix, ndbiPix, ndwiPix, bsiPix, fdiv,
      fadd, fsub, blueMasked, maskPix, zeroPix, eps, isfinite]
  · norm_num [ndviPix, fdiv, zeroPix, eps, isfinite]

/-- Claim C7. In load_masked_image every cell whose stored value equals
    exactly 0 is converted to NaN, also inside the boundary polygon, and is
    then indistinguishable from any pixel outside the boundary. -/
theorem c7_zero_becomes_nan :
    ∀ (inside : Bool) (v : F),
      load_masked_image_px inside (some 0) = none ∧
      load_masked_image_px inside (some 0) = load_masked_image_px false v := by
  intro inside v
  have h0 : load_masked_image_px inside (some 0) = none := by
    cases inside <;> simp [load_masked_image_px]
  exact ⟨h0, h0.trans (load_outside_none v).symm⟩

/-- Claim C5. method_difference at one pixel: with a nonnegative threshold,
    finite pixels map to 1 when the difference exceeds the threshold, to -1
    when it is below the negated threshold and to 0 otherwise; a NaN in
    either year yields 0; identical inputs yield 0. -/
theorem c5_difference_px (x y τ : ℚ) (a b : F) (hτ : 0 ≤ τ) :
    (method_difference_px (some x) (some y) τ =
      if τ < y - x then 1 else if y - x < -τ then -1 else 0) ∧
    (a = none → method_difference_px a b τ = 0) ∧
    (b = none → method_difference_px a b τ = 0) ∧
    method_difference_px a a τ = 0 := by
  refine ⟨?_, ?_, ?_, ?_⟩
  · simp only [method_difference_px, fsub, fgt, flt]
    by_cases h1 : τ < y - x
    · have h2 : ¬ y - x < -τ := by linarith
      simp [h1, h2]
    · by_cases h2 : y - x < -τ
      · simp [h1, h2]
      · simp [h1, h2]
  · rintro rfl
    cases b <;> rfl
  · rintro rfl
    cases a <;> rfl
  · cases a with
    | none => rfl
    | some v =>
      simp only [method_difference_px, fsub, fgt, flt]
      have h1 : ¬ τ < v - v := by linarith
      have h2 : ¬ v - v < -τ := by linarith
      have h3 : ¬ τ < 0 := not_lt.mpr hτ
      simp [h1, h2, h3]

/-- The default change threshold 0.15 is nonnegative. -/
theorem default_threshold_nonneg : (0 : ℚ) ≤ 3 / 20 := by
  norm_num

/-- Witness for claim C5 at the scenario input: both years at NDVI 0.2 with
    the default threshold 0.15. -/
theorem c5_difference_px_witness :
    method_difference_px (some (1 / 5)) (some (1 / 5)) (3 / 20) = 0 :=
  (c5_difference_px (1 / 5) (1 / 5) (3 / 20) (some (1 / 5)) (some (1 / 5))
    default_threshold_nonneg).2.2.2

/-- Claim C4 counterexample. With exactly one historical year (fewer than
    the two the claim requires) and the target year present, the guard of
    method_anomaly does not fail: the method proceeds and produces its
    Z-score output. -/
theorem c4_one_history_counterexample :
    anomaly_insufficient [2019, 2025] 2025 = false ∧
    (([2019, 2025] : List ℤ).filter (fun y => decide (y ≠ 2025))).length < 2 := by
  decide

/-- Claim C4 as amended: method_anomaly fails, producing no anomaly raster,
    if and only if there is no historical year at all or the target year
    raster is absent; with one or more historical rasters and the target
    present it produces the Z-score output. -/
theorem c4_insufficient_amended (files : List ℤ) (target : ℤ) :
    anomaly_insufficient files target = true ↔
      (files.contains target = false ∨
        files.filter (fun y => decide (y ≠ target)) = []) := by
  simp only [anomaly_insufficient, Bool.or_eq_true, Bool.not_eq_true',
    List.isEmpty_iff]

/-- Witness for the amended claim C4: target 2025 present with no
    historical year at all makes the guard fail. -/
theorem c4_insufficient_amended_witness :
    anomaly_insufficient [2025] 2025 = true :=
  (c4_insufficient_amended [2025] 2025).mpr (by decide)

/-- Claim C3. method_urban_classification assigns every pixel exactly one
    class in 0..4; a pixel assigned class k > 0 satisfies the predicate of
    rule k and no earlier rule; a pixel whose NDVI is not finite in both
    years stays at class 0 regardless of the rule predicates. -/
theorem c3_urban_classes (p : UrbanPix) :
    (method_urban_classification_px p = 0 ∨ method_urban_classification_px p = 1 ∨
      method_urban_classification_px p = 2 ∨ method_urban_classification_px p = 3 ∨
      method_urban_classification_px p = 4) ∧
    (method_urban_classification_px p = 1 → mask_urb p = true) ∧
    (method_urban_classification_px p = 2 →
      mask_loss p = true ∧ mask_urb p = false) ∧
    (method_urban_classification_px p = 3 →
      mask_gain p = true ∧ mask_urb p = false ∧ mask_loss p = false) ∧
    (method_urban_classification_px p = 4 →
      mask_new_water p = true ∧ mask_urb p = false ∧ mask_loss p = false ∧
        mask_gain p = false) ∧
    (validPix p = false → method_urban_classification_px p = 0) := by
  simp only [method_urban_classification_px]
  cases h1 : mask_urb p <;> cases h2 : mask_loss p <;> cases h3 : mask_gain p <;>
    cases h4 : mask_new_water p <;> cases h5 : validPix p <;> simp

/-- Witness for claim C3: a pixel with non-finite NDVI in year one is
    assigned class 0. -/
theorem c3_urban_classes_witness :
    method_urban_classification_px uPixNaN = 0 :=
  (c3_urban_classes uPixNaN).2.2.2.2.2 rfl

/-- Claim C2 counterexample. A pixel outside the boundary polygon loads as
    NaN in the target year and in both historical years, so its Z-score is
    NaN; method_anomaly then replaces every non-finite Z-score with 0, so
    the AnomalyMap cell outside the boundary holds the finite value 0 (with
    the raster nodata declared as NaN), not NaN as the claim states. -/
theorem c2_outside_pixel_anomaly_counterexample :
    load_masked_image_px false (some 7) = none ∧
    method_anomaly_px (fun q => q)
      [load_masked_image_px false (some 5), load_masked_image_px false (some 6)]
      (load_masked_image_px false (some 7)) = 0 := by
  decide

/-- Claim C2 as amended: outside the boundary polygon every loaded cell is
    NaN; the int8 ChangeMaps of method_difference and
    method_urban_classification output 0 there, which is the designated
    integer nodata value of save_raster; the float AnomalyMap however
    outputs the finite value 0 (not NaN, its declared nodata), because
    method_anomaly replaces every non-finite Z-score with 0. -/
theorem c2_masking_amended (sqrt : ℚ → ℚ) (v1 v2 : F) (τ : ℚ)
    (s1 s2 s3 s4 s5 s6 : F) (n : ℕ) (ivals : List ℤ) :
    load_masked_image_px false v1 = none ∧
    method_difference_px (load_masked_image_px false v1)
      (load_masked_image_px false v2) τ = 0 ∧
    method_urban_classification_px
      { ndvi1 := load_masked_image_px false s1, ndbi1 := load_masked_image_px false s2
        ndwi1 := load_masked_image_px false s3, ndvi2 := load_masked_image_px false s4
        ndbi2 := load_masked_image_px false s5, ndwi2 := load_masked_image_px false s6 } = 0 ∧
    (save_raster_profile (NDArray.intArr ivals)).nodata = some 0 ∧
    method_anomaly_px sqrt (List.replicate n (load_masked_image_px false v2))
      (load_masked_image_px false v1) = 0 ∧
    (save_raster_profile (NDArray.floatArr [some (method_anomaly_px sqrt
      (List.replicate n (load_masked_image_px false v2))
      (load_masked_image_px false v1))])).nodata = none := by
  rw [load_outside_none v1, load_outside_none v2, load_outside_none s1,
    load_outside_none s2, load_outside_none s3, load_outside_none s4,
    load_outside_none s5, load_outside_none s6]
  refine ⟨rfl, rfl, rfl, rfl, ?_, rfl⟩
  simp [method_anomaly_px, nanmean, nanstd, nanvar, replicate_none_filterMap,
    fsub, fadd, fdiv]

/-- Claim C6. For a pixel whose five bands lie in the reflectance range
    [0, 1] and that is not fully masked, the computed NDVI, NDBI and NDWI
    are finite and lie in [-(1 + eps), 1 + eps] with eps the stabilizing
    constant 1e-10. -/
theorem c6_index_bounds (p : BandPix)
    (hb1 : 0 ≤ p.blue) (hb2 : p.blue ≤ 1)
    (hg1 : 0 ≤ p.green) (hg2 : p.green ≤ 1)
    (hr1 : 0 ≤ p.red) (hr2 : p.red ≤ 1)
    (hn1 : 0 ≤ p.nir) (hn2 : p.nir ≤ 1)
    (hs1 : 0 ≤ p.swir1) (hs2 : p.swir1 ≤ 1)
    (hmask : maskPix p = false) :
    (∃ x, ndviPix p = some x ∧ -(1 + eps) ≤ x ∧ x ≤ 1 + eps) ∧
    (∃ x, ndbiPix p = some x ∧ -(1 + eps) ≤ x ∧ x ≤ 1 + eps) ∧
    (∃ x, ndwiPix p = some x ∧ -(1 + eps) ≤ x ∧ x ≤ 1 + eps) := by
  have he : (0 : ℚ) < eps := by norm_num [eps]
  refine ⟨⟨(p.nir - p.red) / (p.nir + p.red + eps), ?_, ?_⟩,
    ⟨(p.swir1 - p.nir) / (p.swir1 + p.nir + eps), ?_, ?_⟩,
    ⟨(p.green - p.nir) / (p.green + p.nir + eps), ?_, ?_⟩⟩
  · have hd : p.nir + p.red + eps ≠ 0 := by positivity
    simp [ndviPix, fdiv, hd]
  · exact ⟨(normdiff_bounds p.nir p.red hn1 hr1).1, (normdiff_bounds p.nir p.red hn1 hr1).2⟩
  · have hd : p.swir1 + p.nir + eps ≠ 0 := by positivity
    simp [ndbiPix, fdiv, hd]
  · exact ⟨(normdiff_bounds p.swir1 p.nir hs1 hn1).1, (normdiff_bounds p.swir1 p.nir hs1 hn1).2⟩
  · have hd : p.green + p.nir + eps ≠ 0 := by positivity
    simp [ndwiPix, fdiv, hd]
  · exact ⟨(normdiff_bounds p.green p.nir hg1 hn1).1, (normdiff_bounds p.green p.nir hg1 hn1).2⟩

/-- The 0.2-reflectance pixel is within the unit range. -/
theorem bandPix02_in_range : (0 : ℚ) ≤ 1 / 5 ∧ (1 : ℚ) / 5 ≤ 1 := by
  norm_num

/-- The 0.2-reflectance pixel is not masked: its band sum is 1, not 0. -/
theorem bandPix02_not_masked : maskPix bandPix02 = false := by
  norm_num [maskPix, bandPix02]

/-- Witness for claim C6 at the scenario pixel with every band at 0.2. -/
theorem c6_index_bounds_witness :
    (∃ x, ndviPix bandPix02 = some x ∧ -(1 + eps) ≤ x ∧ x ≤ 1 + eps) ∧
    (∃ x, ndbiPix bandPix02 = some x ∧ -(1 + eps) ≤ x ∧ x ≤ 1 + eps) ∧
    (∃ x, ndwiPix bandPix02 = some x ∧ -(1 + eps) ≤ x ∧ x ≤ 1 + eps) :=
  c6_index_bounds bandPix02
    bandPix02_in_range.1 bandPix02_in_range.2
    bandPix02_in_range.1 bandPix02_in_range.2
    bandPix02_in_range.1 bandPix02_in_range.2
    bandPix02_in_range.1 bandPix02_in_range.2
    bandPix02_in_range.1 bandPix02_in_range.2
    bandPix02_not_masked

/-- Claim C8. ScaleDetector is a pure function of the sampled band window:
    two images that agree on the clipped 10 by 10 window of band 1 (and on
    the dimensions that clip it) get the same factor; the factor is 10000
    exactly when the sample maximum exceeds 1.5 and 1.0 otherwise; and
    every band value read afterwards is the stored value divided by that
    factor. -/
theorem c8_scale_detector (img img2 : RawImage)
    (hrows : img.rows = img2.rows) (hcols : img.cols = img2.cols)
    (hr0 : 0 < img.rows) (hc0 : 0 < img.cols)
    (hwin : ∀ i j, i < min img.rows 10 → j < min img.cols 10 →
      img.band 1 i j = img2.band 1 i j) :
    factor img = factor img2 ∧
    (3 / 2 < sampleMax img → factor img = 10000) ∧
    (sampleMax img ≤ 3 / 2 → factor img = 1) ∧
    (∀ b i j, scaledBand img b i j = img.band b i j / factor img) := by
  have hsl : sampleList img = sampleList img2 := by
    unfold sampleList
    rw [← hrows, ← hcols]
    apply flatMap_congr_mem
    intro i hi
    apply map_congr_mem
    intro j hj
    exact hwin i j (List.mem_range.mp hi) (List.mem_range.mp hj)
  have h00 : img.band 1 0 0 = img2.band 1 0 0 :=
    hwin 0 0 (lt_min hr0 (by norm_num)) (lt_min hc0 (by norm_num))
  have hsm : sampleMax img = sampleMax img2 := by
    unfold sampleMax
    rw [hsl, h00]
  refine ⟨?_, ?_, ?_, ?_⟩
  · unfold factor
    rw [hsm]
  · intro h
    unfold factor
    rw [if_pos h]
  · intro h
    unfold factor
    rw [if_neg (not_lt.mpr h)]
  · intro b i j
    rfl

/-- The sample maximum of the digital-number test image exceeds 1.5. -/
theorem rawImg0_sample_large : (3 : ℚ) / 2 < sampleMax rawImg0 := by
  norm_num [sampleMax, sampleList, rawImg0, List.range_succ, List.range_zero,
    List.flatMap_cons, List.flatMap_nil, List.foldl_cons, List.foldl_nil,
    max_self]

/-- Witness for claim C8: the one-pixel DN image gets factor 10000 and its
    NIR band is divided by it. -/
theorem c8_scale_detector_witness :
    factor rawImg0 = 10000 ∧
    scaledBand rawImg0 4 0 0 = rawImg0.band 4 0 0 / factor rawImg0 := by
  have h := c8_scale_detector rawImg0 rawImg0 rfl rfl (by decide) (by decide)
    (fun i j _ _ => rfl)
  exact ⟨h.2.1 rawImg0_sample_large, h.2.2.2 4 0 0⟩

/-- Claim C9. save_raster infers the output encoding purely from the array:
    integer content selects int8 exactly when every value lies in
    [-128, 127] (via data.min and data.max on a nonempty array) and int16
    otherwise, with nodata 0; float content selects float32 with nodata
    NaN; and every written raster is LZW-compressed. -/
theorem c9_save_raster_encoding (vals : List ℤ) (fvals : List F)
    (hne : vals ≠ []) :
    ((save_raster_profile (NDArray.intArr vals)).dtype = DType.int8 ↔
      ∀ v ∈ vals, -128 ≤ v ∧ v ≤ 127) ∧
    ((save_raster_profile (NDArray.intArr vals)).dtype = DType.int8 ∨
      (save_raster_profile (NDArray.intArr vals)).dtype = DType.int16) ∧
    (save_raster_profile (NDArray.intArr vals)).nodata = some 0 ∧
    (save_raster_profile (NDArray.intArr vals)).lzwCompressed = true ∧
    (save_raster_profile (NDArray.floatArr fvals)).dtype = DType.float32 ∧
    (save_raster_profile (NDArray.floatArr fvals)).nodata = none ∧
    (save_raster_profile (NDArray.floatArr fvals)).lzwCompressed = true := by
  have key : (-128 ≤ arrMin vals ∧ arrMax vals ≤ 127) ↔
      ∀ v ∈ vals, -128 ≤ v ∧ v ≤ 127 := by
    constructor
    · rintro ⟨hmin, hmax⟩ v hv
      exact ⟨le_trans hmin (foldl_min_le_mem vals _ v hv),
        le_trans (mem_le_foldl_max vals _ v hv) hmax⟩
    · intro h
      have hhead : vals.headD 0 ∈ vals := by
        cases vals with
        | nil => exact absurd rfl hne
        | cons x xs => simp
      exact ⟨le_foldl_min (-128) vals _ (h _ hhead).1 (fun v hv => (h v hv).1),
        foldl_max_le 127 vals _ (h _ hhead).2 (fun v hv => (h v hv).2)⟩
  refine ⟨?_, ?_, rfl, rfl, rfl, rfl, rfl⟩
  · simp only [save_raster_profile]
    split_ifs with h
    · simpa using key.mp h
    · constructor
      · intro hcontra
        exact absurd hcontra (by simp)
      · intro hall
        exact absurd (key.mpr hall) h
  · simp only [save_raster_profile]
    split_ifs <;> simp

/-- Witness for claim C9: the difference map values {-1, 0, 1} are a
    nonempty integer array that fits int8. -/
theorem c9_save_raster_encoding_witness :
    (save_raster_profile (NDArray.intArr [1, -1, 0])).dtype = DType.int8 :=
  (c9_save_raster_encoding [1, -1, 0] [none] (by decide)).1.mpr (by decide)

/-- Claim C10. The detect_changes entry point exits with a non-zero status
    before running any change-detection method exactly when a year falls
    outside the inclusive bound [2019, 2025], or the start year does not
    strictly precede the end year, or either required index raster is
    missing. -/
theorem c10_cli_validation (t1 t2 : ℤ) (f1 f2 : Bool) :
    main_validates t1 t2 f1 f2 = false ↔
      (t1 < MIN_YEAR ∨ MAX_YEAR < t1 ∨ t2 < MIN_YEAR ∨ MAX_YEAR < t2 ∨
        t2 ≤ t1 ∨ f1 = false ∨ f2 = false) := by
  unfold main_validates MIN_YEAR MAX_YEAR
  cases f1 <;> cases f2 <;> split_ifs with h1 h2 h3 <;> simp_all <;> omega

/-- Witness for claim C10: the year 2018 is below the bound and the program
    exits before any method runs. -/
theorem c10_cli_validation_witness :
    main_validates 2018 2025 true true = false :=
  (c10_cli_validation 2018 2025 true true).mpr (by decide)

end CambioUrbano
